import Mathlib

/-!
Shallow embedding of the pipeline-state logic of the auto_crm_hackathon
repository.  The definitions below are translated from the React frontend
sources (`frontend/src/components/KanbanBoard.jsx`, `CRMChat.jsx`,
`LeadChat.jsx`, and the Dashboard component), which are the repository's
implementation of pipeline reconstruction, lead sanitization, Kanban
projection, lead moves, lead-data formatting and state reset.  JavaScript
values that can flow through these functions are modelled by the `JValue`
type; absence of an object key is modelled by `Option`.
-/

/-- A JavaScript value as it occurs in the payloads handled by the frontend:
`null`, booleans, (integer) numbers, strings, and arrays of strings (the
only array payloads the embedded code inspects are tag lists). -/
inductive JValue where
  | null
  | bool (b : Bool)
  | num (n : Int)
  | str (s : String)
  | arr (xs : List String)
deriving DecidableEq, Repr

/-- JavaScript truthiness for a `JValue`: `null`, `false`, `0` and `""` are
falsy; every array is truthy. -/
def truthy : JValue → Bool
  | .null => false
  | .bool b => b
  | .num n => !(n == 0)
  | .str s => !(s == "")
  | .arr _ => true

/-- JavaScript `a || d` where `a` is an object-property access (absent key
reads as `undefined`, which is falsy). -/
def jsOr (a : Option JValue) (d : JValue) : JValue :=
  match a with
  | some v => if truthy v then v else d
  | none => d

/-- Truthiness of a possibly-absent property (`undefined` is falsy). -/
def optTruthy : Option JValue → Bool
  | some v => truthy v
  | none => false

/-- A lead object as held in the KanbanBoard component's `leads` state
(the shape produced by `fetchLeads`' sanitization, KanbanBoard.jsx 67-79:
every listed key is present afterwards except `session_id`, which is only
present when the backend record carried it). -/
structure Lead where
  id : JValue
  session_id : Option JValue
  name : JValue
  type : JValue
  email : JValue
  stage : JValue
  user_tags : JValue
  created_at : JValue
deriving DecidableEq, Repr

/-- A raw lead record as returned by `GET /state/leads`, before
sanitization: any key may be absent. -/
structure RawLead where
  id : Option JValue
  session_id : Option JValue
  name : Option JValue
  type : Option JValue
  email : Option JValue
  stage : Option JValue
  user_tags : Option JValue
  created_at : Option JValue
deriving DecidableEq, Repr

/-- The flattened pipeline payload received by the KanbanBoard component
(`pipelineData`).  `total_stages` is the integer completion field (all
claims concern integer-valued `total_stages`); the `stage*` functions model
the dynamic property reads `pipelineData[stage_<i>_...]`, returning `none`
when the key is absent. -/
structure PipelineData where
  total_stages : Option Int
  biz_name : Option JValue
  stageName : Int → Option JValue
  stageGoal : Int → Option JValue
  stageEntry : Int → Option JValue
  stageFields : Int → Option JValue
  stageTags : Int → Option JValue

/-- One stage object built by the KanbanBoard reconstruction loop
(KanbanBoard.jsx 22-35). -/
structure Stage where
  id : Int
  name : JValue
  goal : JValue
  entry_condition : JValue
  fields : JValue
  user_tags : JValue
  leads : List Lead
deriving DecidableEq, Repr

/-- Truthiness of the `total_stages` property (an absent key or the number
`0` is falsy, every other integer is truthy). -/
def totalStagesTruthy : Option Int → Bool
  | some n => !(n == 0)
  | none => false

/-- `const totalStages = pipelineData.total_stages || 0` (KanbanBoard.jsx 19). -/
def loopBound (pd : PipelineData) : Int :=
  match pd.total_stages with
  | some n => if n == 0 then 0 else n
  | none => 0

/-- The stage object built for ordinal `i` (KanbanBoard.jsx 23-32):
every field defaults through JavaScript `||`, and `user_tags` defaults to
the synthesized tag pair. -/
def mkStage (pd : PipelineData) (i : Int) : Stage where
  id := i
  name := jsOr (pd.stageName i) (.str ("Stage " ++ toString i))
  goal := jsOr (pd.stageGoal i) (.str "No goal specified")
  entry_condition := jsOr (pd.stageEntry i) (.str "")
  fields := jsOr (pd.stageFields i) (.arr [])
  user_tags := jsOr (pd.stageTags i) (.arr ["stage_" ++ toString i, "active"])
  leads := []

/-- The `for (let i = 1; i <= totalStages; i++)` reconstruction loop
(KanbanBoard.jsx 22-35): builds the stage list in ordinal order.  A
non-positive bound yields the empty list, exactly as the JS loop body
never runs. -/
def buildStages (pd : PipelineData) : List Stage :=
  (List.range (loopBound pd).toNat).map (fun (j : Nat) => mkStage pd ((j : Int) + 1))

/-- The full effect of the KanbanBoard `useEffect` on the `stages` state
(KanbanBoard.jsx 11-46): when `pipelineData` is present and
`total_stages` is truthy the stage list is rebuilt from the payload,
otherwise the stage list is set to empty.  `prev` is the previous value of
the `stages` state. -/
def applyPipelineData (prev : List Stage) (pd : Option PipelineData) : List Stage :=
  match pd with
  | some d => if totalStagesTruthy d.total_stages then buildStages d else []
  | none => []

/-- `getLeadsForStage` (KanbanBoard.jsx 93-95): filters the leads whose
`stage` strictly equals the stage ordinal. -/
def getLeadsForStage (leads : List Lead) (stageId : Int) : List Lead :=
  leads.filter (fun l => l.stage == JValue.num stageId)

/-- The Kanban render (KanbanBoard.jsx 182-186): one column per stage, in
the order of the stage list, each paired with its `getLeadsForStage`
result. -/
def kanbanColumns (stages : List Stage) (leads : List Lead) : List (Stage × List Lead) :=
  stages.map (fun s => (s, getLeadsForStage leads s.id))

/-- `moveLeadToStage` (KanbanBoard.jsx 97-103): maps over the lead list,
replacing the `stage` field of every lead whose `id` or `session_id`
equals the given identifier. -/
def moveLeadToStage (leads : List Lead) (leadId : JValue) (newStage : JValue) : List Lead :=
  leads.map (fun l =>
    if l.id = leadId ∨ l.session_id = some leadId then { l with stage := newStage } else l)

/-- The sanitization in `fetchLeads` (KanbanBoard.jsx 68-77): an object
literal computes defaulted fields, then `...lead` is spread over it LAST,
so every key present on the raw record overrides the computed default.
`nowId` and `nowIso` stand for the `Date.now()` / `toISOString()` values
used in the computed defaults. -/
def sanitizeLead (nowId nowIso : String) (raw : RawLead) : Lead :=
  let computedId := jsOr raw.session_id (jsOr raw.id (.str ("lead-" ++ nowId)))
  let computedTags : JValue :=
    match raw.user_tags with
    | some (.arr xs) => .arr xs
    | _ => .arr []
  { id := raw.id.getD computedId
    session_id := raw.session_id
    name := raw.name.getD (jsOr raw.name (.str "Unnamed Lead"))
    type := raw.type.getD (jsOr raw.type (.str "Lead"))
    email := raw.email.getD (jsOr raw.email (.str ""))
    stage := raw.stage.getD (jsOr raw.stage (.num 1))
    user_tags := raw.user_tags.getD computedTags
    created_at := raw.created_at.getD (jsOr raw.created_at (.str nowIso)) }

/-- The lead payload object shown by `formatLeadData` (LeadChat.jsx):
any field may be absent on the object received from the interactor
agent. -/
structure LeadData where
  name : Option JValue
  type : Option JValue
  company : Option JValue
  email : Option JValue
  phone : Option JValue
  requirements : Option JValue
deriving DecidableEq, Repr

/-- The field/value rows assembled inside `formatLeadData`
(LeadChat.jsx 197-204), in source order, before filtering (the icon
component attached to each row is presentation-only and not modelled). -/
def leadFieldEntries (d : LeadData) : List (String × Option JValue) :=
  [("Name", d.name), ("Type", d.type), ("Company", d.company),
   ("Email", d.email), ("Phone", d.phone), ("Requirements", d.requirements)]

/-- `formatLeadData` (LeadChat.jsx 194-207): returns `null` for absent
data, otherwise the six assembled rows filtered by
`.filter(field => field.value)` (truthiness of the value). -/
def formatLeadData : Option LeadData → Option (List (String × Option JValue))
  | none => none
  | some d => some ((leadFieldEntries d).filter (fun f => optTruthy f.2))

/-- A JavaScript object modelled as an association list (used for the lead
session object and chat message objects held by the Dashboard). -/
abbrev JObject := List (String × JValue)

/-- The Dashboard component's state (src/unnamed Dashboard source,
lines 9-15): active tab, pipeline data, loading flag, the persisted lead
session and messages, and the `resetting` flag. -/
structure DashboardState where
  activeTab : String
  pipelineData : Option PipelineData
  isLoading : Bool
  leadSession : Option JObject
  leadMessages : List JObject
  resetting : Bool

/-- The Dashboard state at process start (the `useState` initializers:
tab `"chat"`, no pipeline, not loading, no lead session, no messages,
not resetting). -/
def initialDashboardState : DashboardState where
  activeTab := "chat"
  pipelineData := none
  isLoading := false
  leadSession := none
  leadMessages := []
  resetting := false

/-- The state effect of `resetState` on the confirmed path (src/unnamed
Dashboard source, lines 18-39): clears `pipelineData`, returns to the
`chat` tab and sets `resetting`; the backend call is external and no other
piece of the component state is touched. -/
def resetState (s : DashboardState) : DashboardState :=
  { s with pipelineData := none, activeTab := "chat", resetting := true }

/-- A builder-agent reply normalized to conversational text plus the
flattened structured fields. -/
structure AgentReply where
  text : String
  fields : List (String × JValue)

/-- Modelled from the spec: the backend's pipeline-completion detection
(`backend/agents.py`, which is not under src/ — the frontend only consumes
the resulting `pipeline_complete` flag).  Per the spec, "the builder agent
reply is considered pipeline-complete when it contains a `total_stages`
integer field". -/
def pipelineCompleteReply (r : AgentReply) : Bool :=
  match r.fields.lookup "total_stages" with
  | some (.num _) => true
  | _ => false

/-! ## Helper lemmas -/

theorem truthy_ne_null {v : JValue} (h : truthy v = true) : v ≠ JValue.null := by
  cases v <;> simp_all [truthy]

theorem jsOr_str_ne_null (a : Option JValue) (s : String) :
    jsOr a (JValue.str s) ≠ JValue.null := by
  unfold jsOr
  cases a with
  | none => simp
  | some v =>
    by_cases h : truthy v = true
    · simpa [h] using truthy_ne_null h
    · simp [h]

theorem loopBound_eq (pd : PipelineData) (N : Int) (h1 : pd.total_stages = some N)
    (h2 : N ≠ 0) : loopBound pd = N := by
  simp [loopBound, h1, h2]

theorem buildStages_map_id (pd : PipelineData) :
    (buildStages pd).map Stage.id
      = (List.range (loopBound pd).toNat).map (fun (j : Nat) => (j : Int) + 1) := by
  unfold buildStages
  rw [List.map_map]
  rfl

/-! ## Claim theorems -/

/-- C1: for every reconciler input with an integer `total_stages = N`,
`N ≥ 1`, the reconstruction loop builds exactly `N` stages whose ordinals
are exactly `1..N` in order; every stage's name and goal are non-null, the
name defaults to `"Stage <i>"` and the goal to the placeholder
`"No goal specified"` when the corresponding key is absent, and the tag
set defaults to `{stage_<i>, active}` when `stage_<i>_user_tags` is
absent. -/
theorem reconcile_stage_list_spec (pd : PipelineData) (N : Int)
    (h1 : pd.total_stages = some N) (h2 : 1 ≤ N) :
    (buildStages pd).length = N.toNat
    ∧ (buildStages pd).map Stage.id = (List.range N.toNat).map (fun (j : Nat) => (j : Int) + 1)
    ∧ ∀ s ∈ buildStages pd,
        s.name ≠ JValue.null
        ∧ s.goal ≠ JValue.null
        ∧ (pd.stageName s.id = none → s.name = JValue.str ("Stage " ++ toString s.id))
        ∧ (pd.stageGoal s.id = none → s.goal = JValue.str "No goal specified")
        ∧ (pd.stageTags s.id = none →
            s.user_tags = JValue.arr ["stage_" ++ toString s.id, "active"]) := by
  have hN : N ≠ 0 := by omega
  have hlb : loopBound pd = N := loopBound_eq pd N h1 hN
  refine ⟨?_, ?_, ?_⟩
  · unfold buildStages
    rw [List.length_map, List.length_range, hlb]
  · rw [buildStages_map_id, hlb]
  · intro s hs
    simp only [buildStages, List.mem_map, List.mem_range] at hs
    obtain ⟨j, _, rfl⟩ := hs
    refine ⟨jsOr_str_ne_null _ _, jsOr_str_ne_null _ _, ?_, ?_, ?_⟩
    · intro h; simp [mkStage] at h ⊢; simp [h, jsOr]
    · intro h; simp [mkStage] at h ⊢; simp [h, jsOr]
    · intro h; simp [mkStage] at h ⊢; simp [h, jsOr]

/-- A concrete reconciler input used to instantiate the claim theorems. -/
def pdExample : PipelineData where
  total_stages := some 2
  biz_name := some (.str "Acme Dental")
  stageName := fun i => if i == 1 then some (.str "New") else none
  stageGoal := fun _ => none
  stageEntry := fun _ => none
  stageFields := fun _ => none
  stageTags := fun _ => none

/-- Witness for C1 at the concrete input `pdExample`. -/
theorem reconcile_stage_list_spec_witness :
    (pdExample.total_stages = some 2 ∧ (1 : Int) ≤ 2)
    ∧ ((buildStages pdExample).length = (2 : Int).toNat
      ∧ (buildStages pdExample).map Stage.id
          = (List.range (2 : Int).toNat).map (fun (j : Nat) => (j : Int) + 1)
      ∧ ∀ s ∈ buildStages pdExample,
          s.name ≠ JValue.null
          ∧ s.goal ≠ JValue.null
          ∧ (pdExample.stageName s.id = none → s.name = JValue.str ("Stage " ++ toString s.id))
          ∧ (pdExample.stageGoal s.id = none → s.goal = JValue.str "No goal specified")
          ∧ (pdExample.stageTags s.id = none →
              s.user_tags = JValue.arr ["stage_" ++ toString s.id, "active"])) :=
  ⟨⟨rfl, by decide⟩, reconcile_stage_list_spec pdExample 2 rfl (by decide)⟩

/-- C9: `moveLeadToStage` preserves the length of the lead list; at every
position, the lead keeps its `id`, `session_id`, `name`, `type`, `email`,
`user_tags` and `created_at`, and its `stage` becomes the target exactly
when its `id` or `session_id` matches the given identifier (otherwise the
stage too is unchanged). -/
theorem moveLeadToStage_frame (leads : List Lead) (leadId newStage : JValue)
    (i : Nat) (h : i < leads.length)
    (h2 : i < (moveLeadToStage leads leadId newStage).length) :
    (moveLeadToStage leads leadId newStage).length = leads.length
    ∧ ((moveLeadToStage leads leadId newStage).get ⟨i, h2⟩).id = (leads.get ⟨i, h⟩).id
    ∧ ((moveLeadToStage leads leadId newStage).get ⟨i, h2⟩).session_id
        = (leads.get ⟨i, h⟩).session_id
    ∧ ((moveLeadToStage leads leadId newStage).get ⟨i, h2⟩).name = (leads.get ⟨i, h⟩).name
    ∧ ((moveLeadToStage leads leadId newStage).get ⟨i, h2⟩).type = (leads.get ⟨i, h⟩).type
    ∧ ((moveLeadToStage leads leadId newStage).get ⟨i, h2⟩).email = (leads.get ⟨i, h⟩).email
    ∧ ((moveLeadToStage leads leadId newStage).get ⟨i, h2⟩).user_tags
        = (leads.get ⟨i, h⟩).user_tags
    ∧ ((moveLeadToStage leads leadId newStage).get ⟨i, h2⟩).created_at
        = (leads.get ⟨i, h⟩).created_at
    ∧ ((moveLeadToStage leads leadId newStage).get ⟨i, h2⟩).stage
        = (if (leads.get ⟨i, h⟩).id = leadId ∨ (leads.get ⟨i, h⟩).session_id = some leadId
           then newStage else (leads.get ⟨i, h⟩).stage) := by
  have hlen : (moveLeadToStage leads leadId newStage).length = leads.length := by
    simp [moveLeadToStage]
  have hget : (moveLeadToStage leads leadId newStage).get ⟨i, h2⟩
      = (fun l => if l.id = leadId ∨ l.session_id = some leadId
                  then { l with stage := newStage } else l) (leads.get ⟨i, h⟩) := by
    simp [moveLeadToStage, List.get_eq_getElem, List.getElem_map]
  rw [hget]
  simp only [List.get_eq_getElem]
  by_cases hc : leads[i].id = leadId ∨ leads[i].session_id = some leadId
  · simp [hc, hlen]
  · simp [hc, hlen]

/-- A concrete in-range lead used for the move-operation claims. -/
def leadL1 : Lead where
  id := .str "L1"
  session_id := some (.str "L1")
  name := .str "Ann"
  type := .str "Lead"
  email := .str "ann@x.com"
  stage := .num 1
  user_tags := .arr []
  created_at := .str "2024-01-01T00:00:00"

/-- Witness for C9: moving `leadL1` to stage 2 by its id. -/
theorem moveLeadToStage_frame_witness :
    (0 < ([leadL1] : List Lead).length
      ∧ 0 < (moveLeadToStage [leadL1] (.str "L1") (.num 2)).length)
    ∧ ((moveLeadToStage [leadL1] (.str "L1") (.num 2)).length = ([leadL1] : List Lead).length
      ∧ ((moveLeadToStage [leadL1] (.str "L1") (.num 2)).get ⟨0, by decide⟩).id
          = (([leadL1] : List Lead).get ⟨0, by decide⟩).id
      ∧ ((moveLeadToStage [leadL1] (.str "L1") (.num 2)).get ⟨0, by decide⟩).session_id
          = (([leadL1] : List Lead).get ⟨0, by decide⟩).session_id
      ∧ ((moveLeadToStage [leadL1] (.str "L1") (.num 2)).get ⟨0, by decide⟩).name
          = (([leadL1] : List Lead).get ⟨0, by decide⟩).name
      ∧ ((moveLeadToStage [leadL1] (.str "L1") (.num 2)).get ⟨0, by decide⟩).type
          = (([leadL1] : List Lead).get ⟨0, by decide⟩).type
      ∧ ((moveLeadToStage [leadL1] (.str "L1") (.num 2)).get ⟨0, by decide⟩).email
          = (([leadL1] : List Lead).get ⟨0, by decide⟩).email
      ∧ ((moveLeadToStage [leadL1] (.str "L1") (.num 2)).get ⟨0, by decide⟩).user_tags
          = (([leadL1] : List Lead).get ⟨0, by decide⟩).user_tags
      ∧ ((moveLeadToStage [leadL1] (.str "L1") (.num 2)).get ⟨0, by decide⟩).created_at
          = (([leadL1] : List Lead).get ⟨0, by decide⟩).created_at
      ∧ ((moveLeadToStage [leadL1] (.str "L1") (.num 2)).get ⟨0, by decide⟩).stage
          = (if (([leadL1] : List Lead).get ⟨0, by decide⟩).id = .str "L1"
                ∨ (([leadL1] : List Lead).get ⟨0, by decide⟩).session_id = some (.str "L1")
             then .num 2 else (([leadL1] : List Lead).get ⟨0, by decide⟩).stage)) :=
  ⟨⟨by decide, by decide⟩,
    moveLeadToStage_frame [leadL1] (.str "L1") (.num 2) 0 (by decide) (by decide)⟩

/-- A one-stage reconciler input (`total_stages = 1`), so `stageCount = 1`. -/
def pdOne : PipelineData where
  total_stages := some 1
  biz_name := none
  stageName := fun _ => none
  stageGoal := fun _ => none
  stageEntry := fun _ => none
  stageFields := fun _ => none
  stageTags := fun _ => none

/-- Counterexample to C2: with a one-stage pipeline (`stageCount = 1`),
moving `leadL1` to the out-of-range ordinal 5 is not rejected and does not
leave the record unchanged — `moveLeadToStage` performs the move and sets
the lead's stage to 5. -/
theorem moveLeadToStage_out_of_range_cex :
    (buildStages pdOne).length = 1
    ∧ ¬((1 : Int) ≤ 5 ∧ (5 : Int) ≤ ((buildStages pdOne).length : Int))
    ∧ moveLeadToStage [leadL1] (.str "L1") (.num 5) ≠ [leadL1]
    ∧ (moveLeadToStage [leadL1] (.str "L1") (.num 5)).map Lead.stage = [JValue.num 5] := by
  refine ⟨by decide, by decide, ?_, by decide⟩
  decide

/-- Whether a lead's `stage` value is a stage ordinal within
`1..stageCount`. -/
def stageOk (stageCount : Int) : JValue → Bool
  | .num k => decide (1 ≤ k ∧ k ≤ stageCount)
  | _ => false

/-- C2 (amended): `moveLeadToStage` performs no range validation and never
fails; the in-range invariant is preserved only when the caller passes an
in-range target, as the component's arrow buttons do: if every lead's
stage is in `1..stageCount` and the target is in `1..stageCount`, then
after the move every lead's stage is still in `1..stageCount`. -/
theorem moveLeadToStage_in_range_preserved (leads : List Lead)
    (leadId newStage : JValue) (stageCount : Int)
    (hall : ∀ l ∈ leads, stageOk stageCount l.stage = true)
    (htgt : stageOk stageCount newStage = true) :
    ∀ l ∈ moveLeadToStage leads leadId newStage, stageOk stageCount l.stage = true := by
  intro l hl
  simp only [moveLeadToStage, List.mem_map] at hl
  obtain ⟨l0, hl0, rfl⟩ := hl
  by_cases hc : l0.id = leadId ∨ l0.session_id = some leadId
  · simpa [hc] using htgt
  · simpa [hc] using hall l0 hl0

/-- Witness for the amended C2 at a concrete in-range move. -/
theorem moveLeadToStage_in_range_preserved_witness :
    (∀ l ∈ ([leadL1] : List Lead), stageOk 1 l.stage = true)
    ∧ stageOk 1 (.num 1) = true
    ∧ ∀ l ∈ moveLeadToStage [leadL1] (.str "L1") (.num 1), stageOk 1 l.stage = true :=
  ⟨by decide, by decide,
    moveLeadToStage_in_range_preserved [leadL1] (.str "L1") (.num 1) 1 (by decide) (by decide)⟩

/-- A stage-1 lead created first (earlier `created_at`). -/
def leadEarly : Lead where
  id := .str "A"
  session_id := none
  name := .str "Early"
  type := .str "Lead"
  email := .str ""
  stage := .num 1
  user_tags := .arr []
  created_at := .str "2024-01-01T00:00:00"

/-- A stage-1 lead created later (larger `created_at`). -/
def leadLate : Lead where
  id := .str "B"
  session_id := none
  name := .str "Late"
  type := .str "Lead"
  email := .str ""
  stage := .num 1
  user_tags := .arr []
  created_at := .str "2024-02-01T00:00:00"

/-- Counterexample to C3: when the snapshot lists the later-created lead
first, the stage-1 column keeps that order — `getLeadsForStage` preserves
the list order and performs no `createdAt` sort, so the column is not in
`createdAt`-ascending order. -/
theorem kanban_not_createdAt_sorted_cex :
    getLeadsForStage [leadLate, leadEarly] 1 = [leadLate, leadEarly]
    ∧ leadLate.created_at = JValue.str "2024-02-01T00:00:00"
    ∧ leadEarly.created_at = JValue.str "2024-01-01T00:00:00"
    ∧ "2024-01-01T00:00:00".data < "2024-02-01T00:00:00".data := by
  refine ⟨by decide, rfl, rfl, by decide⟩

/-- C3 (amended): the Kanban projection lists stages in ordinal order
(`1..N`), and each stage's column contains exactly the leads whose `stage`
equals that ordinal, in the order the leads occur in the snapshot's lead
list (a sublist of it) — no `createdAt` sorting is applied. -/
theorem kanban_grouping_and_order (pd : PipelineData) (N : Int) (leads : List Lead)
    (h1 : pd.total_stages = some N) (h2 : 1 ≤ N) :
    ((kanbanColumns (buildStages pd) leads).map (fun c => c.1.id))
        = (List.range N.toNat).map (fun (j : Nat) => (j : Int) + 1)
    ∧ (∀ i : Int, (getLeadsForStage leads i).Sublist leads)
    ∧ (∀ i : Int, ∀ l, l ∈ getLeadsForStage leads i ↔ l ∈ leads ∧ l.stage = JValue.num i) := by
  have hN : N ≠ 0 := by omega
  refine ⟨?_, ?_, ?_⟩
  · have : (kanbanColumns (buildStages pd) leads).map (fun c => c.1.id)
        = (buildStages pd).map Stage.id := by
      simp [kanbanColumns, List.map_map]
    rw [this, buildStages_map_id, loopBound_eq pd N h1 hN]
  · intro i
    exact List.filter_sublist _
  · intro i l
    simp [getLeadsForStage, List.mem_filter]

/-- Witness for the amended C3 at a concrete snapshot. -/
theorem kanban_grouping_and_order_witness :
    (pdOne.total_stages = some 1 ∧ (1 : Int) ≤ 1)
    ∧ (((kanbanColumns (buildStages pdOne) [leadLate, leadEarly]).map (fun c => c.1.id))
          = (List.range (1 : Int).toNat).map (fun (j : Nat) => (j : Int) + 1)
      ∧ (∀ i : Int, (getLeadsForStage [leadLate, leadEarly] i).Sublist [leadLate, leadEarly])
      ∧ (∀ i : Int, ∀ l, l ∈ getLeadsForStage [leadLate, leadEarly] i
            ↔ l ∈ [leadLate, leadEarly] ∧ l.stage = JValue.num i)) :=
  ⟨⟨rfl, by decide⟩, kanban_grouping_and_order pdOne 1 [leadLate, leadEarly] rfl (by decide)⟩

/-- A lead whose `stage` (2) lies outside the one-stage pipeline `pdOne`. -/
def leadStray : Lead where
  id := .str "S"
  session_id := none
  name := .str "Stray"
  type := .str "Lead"
  email := .str ""
  stage := .num 2
  user_tags := .arr []
  created_at := .str "2024-01-01T00:00:00"

/-- Counterexample to C6: with a one-stage pipeline and a single lead
whose `stage` is 2, the lead appears in no column, so the per-stage
lead-list lengths sum to 0 while the snapshot holds 1 lead — the columns
do not partition the leads. -/
theorem kanban_partition_cex :
    ((kanbanColumns (buildStages pdOne) [leadStray]).map (fun c => c.2.length)).sum = 0
    ∧ ([leadStray] : List Lead).length = 1
    ∧ (0 : Nat) ≠ 1 := by
  refine ⟨by decide, rfl, by decide⟩

theorem sum_map_add_nat {α : Type} (xs : List α) (f g : α → Nat) :
    (xs.map (fun x => f x + g x)).sum = (xs.map f).sum + (xs.map g).sum := by
  induction xs with
  | nil => simp
  | cons a as ih => simp [ih]; omega

theorem indicator_sum_eq_one (ids : List Int) (i0 : Int) (hnd : ids.Nodup)
    (hmem : i0 ∈ ids) :
    (ids.map (fun i => if i0 = i then (1 : Nat) else 0)).sum = 1 := by
  induction ids with
  | nil => cases hmem
  | cons a as ih =>
    rcases List.mem_cons.mp hmem with h | h
    · subst h
      have hnotin : i0 ∉ as := (List.nodup_cons.mp hnd).1
      have hzero : ((as.map (fun i => if i0 = i then (1 : Nat) else 0))).sum = 0 := by
        apply List.sum_eq_zero
        intro x hx
        obtain ⟨i, hi, rfl⟩ := List.mem_map.mp hx
        have : i0 ≠ i := fun e => hnotin (e ▸ hi)
        simp [this]
      simp [hzero]
    · have hne : i0 ≠ a := by
        intro e
        exact (List.nodup_cons.mp hnd).1 (e ▸ h)
      simp only [List.map_cons, List.sum_cons, if_neg hne]
      simpa using ih (List.nodup_cons.mp hnd).2 h

theorem sum_getLeads_lengths (ids : List Int) (leads : List Lead) (hnd : ids.Nodup)
    (hcov : ∀ l ∈ leads, ∃ i ∈ ids, l.stage = JValue.num i) :
    (ids.map (fun i => (getLeadsForStage leads i).length)).sum = leads.length := by
  induction leads with
  | nil =>
    apply List.sum_eq_zero
    intro x hx
    obtain ⟨i, _, rfl⟩ := List.mem_map.mp hx
    simp [getLeadsForStage]
  | cons l ls ih =>
    obtain ⟨i0, hi0, hstage⟩ := hcov l (by simp)
    have hstep : (ids.map (fun i => (getLeadsForStage (l :: ls) i).length))
        = (ids.map (fun i =>
            (if i0 = i then (1 : Nat) else 0) + (getLeadsForStage ls i).length)) := by
      apply List.map_congr_left
      intro i _
      by_cases hc : i0 = i
      · subst hc
        simp [getLeadsForStage, List.filter_cons, hstage]
        omega
      · have hne : (l.stage == JValue.num i) = false := by
          simp [hstage]
          exact hc
        simp [getLeadsForStage, List.filter_cons, hne, hc]
    rw [hstep, sum_map_add_nat, indicator_sum_eq_one ids i0 hnd hi0,
      ih (fun l hl => hcov l (by simp [hl]))]
    simp only [List.length_cons]
    omega

/-- C6 (amended): the Kanban projection is a pure function of the stage
list and lead list (two applications coincide), and the per-stage lead
lists partition the leads — the column lengths sum to the total lead
count — provided the stage ordinals are distinct and every lead's `stage`
is the ordinal of some stage (which the sanitization of fetched leads does
not by itself guarantee). -/
theorem kanban_partition_in_range (stages : List Stage) (leads : List Lead)
    (hnd : (stages.map Stage.id).Nodup)
    (hcov : ∀ l ∈ leads, ∃ s ∈ stages, l.stage = JValue.num s.id) :
    kanbanColumns stages leads = kanbanColumns stages leads
    ∧ ((kanbanColumns stages leads).map (fun c => c.2.length)).sum = leads.length := by
  refine ⟨rfl, ?_⟩
  have hmap : (kanbanColumns stages leads).map (fun c => c.2.length)
      = (stages.map Stage.id).map (fun i => (getLeadsForStage leads i).length) := by
    simp [kanbanColumns, List.map_map]
  rw [hmap]
  apply sum_getLeads_lengths _ _ hnd
  intro l hl
  obtain ⟨s, hs, hstage⟩ := hcov l hl
  exact ⟨s.id, List.mem_map.mpr ⟨s, hs, rfl⟩, hstage⟩

/-- Witness for the amended C6: a two-stage pipeline with one lead in each
stage; the column lengths sum to the lead count. -/
theorem kanban_partition_in_range_witness :
    (((buildStages pdExample).map Stage.id).Nodup
      ∧ ∀ l ∈ ([leadEarly, leadStray] : List Lead),
          ∃ s ∈ buildStages pdExample, l.stage = JValue.num s.id)
    ∧ (kanbanColumns (buildStages pdExample) [leadEarly, leadStray]
          = kanbanColumns (buildStages pdExample) [leadEarly, leadStray]
      ∧ ((kanbanColumns (buildStages pdExample) [leadEarly, leadStray]).map
            (fun c => c.2.length)).sum = ([leadEarly, leadStray] : List Lead).length) :=
  ⟨⟨by decide, by decide⟩,
    kanban_partition_in_range (buildStages pdExample) [leadEarly, leadStray]
      (by decide) (by decide)⟩

/-- A reconciler input with `total_stages = 0`. -/
def pdZero : PipelineData where
  total_stages := some 0
  biz_name := none
  stageName := fun _ => none
  stageGoal := fun _ => none
  stageEntry := fun _ => none
  stageFields := fun _ => none
  stageTags := fun _ => none

/-- Counterexample to C5: receiving `{total_stages: 0}` does not leave the
stage state unchanged — the component clears a previously non-empty stage
list to empty (and raises no `MalformedPipeline` error; the branch is a
silent reset of the view state). -/
theorem applyPipelineData_zero_cex :
    pdZero.total_stages = some 0
    ∧ (0 : Int) < 1
    ∧ buildStages pdExample ≠ []
    ∧ applyPipelineData (buildStages pdExample) (some pdZero) = []
    ∧ applyPipelineData (buildStages pdExample) (some pdZero) ≠ buildStages pdExample := by
  refine ⟨rfl, by decide, by decide, rfl, by decide⟩

/-- C5 (amended): for any input whose `total_stages` is an integer below 1
(or an absent payload), the KanbanBoard effect commits no stage at all: the
resulting stage list is empty.  In particular an empty stage state stays
empty and no partial pipeline is ever committed; but the condition is
handled silently (no `MalformedPipeline` failure), and a previously
non-empty stage list is cleared rather than left unchanged. -/
theorem applyPipelineData_lt_one_empty (prev : List Stage) (pd : PipelineData) (n : Int)
    (h1 : pd.total_stages = some n) (h2 : n < 1) :
    applyPipelineData prev (some pd) = [] ∧ applyPipelineData prev none = [] := by
  refine ⟨?_, rfl⟩
  by_cases hz : n = 0
  · subst hz
    simp [applyPipelineData, totalStagesTruthy, h1]
  · have ht : totalStagesTruthy pd.total_stages = true := by
      simp [totalStagesTruthy, h1, hz]
    have hb : (loopBound pd).toNat = 0 := by
      rw [loopBound_eq pd n h1 hz]
      exact Int.toNat_of_nonpos (by omega)
    simp [applyPipelineData, ht, buildStages, hb]

/-- Witness for the amended C5 at `total_stages = 0`. -/
theorem applyPipelineData_lt_one_empty_witness :
    (pdZero.total_stages = some 0 ∧ (0 : Int) < 1)
    ∧ (applyPipelineData [] (some pdZero) = [] ∧ applyPipelineData [] none = []) :=
  ⟨⟨rfl, by decide⟩, applyPipelineData_lt_one_empty [] pdZero 0 rfl (by decide)⟩

/-- A lead payload carrying only a name. -/
def leadDataAlice : LeadData where
  name := some (.str "Alice")
  type := none
  company := none
  email := none
  phone := none
  requirements := none

/-- Counterexample to C7: for a lead payload carrying only a name,
`formatLeadData` returns a single `Name` row — absent fields are dropped by
the truthiness filter instead of appearing with a `"—"` placeholder, and
the fixed ten-column set (with Website, Address, Notes, Stage) is not
produced. -/
theorem formatLeadData_cex :
    formatLeadData (some leadDataAlice) = some [("Name", some (JValue.str "Alice"))]
    ∧ ([("Name", some (JValue.str "Alice"))] : List (String × Option JValue)).map Prod.fst
        ≠ ["Name", "Type", "Company", "Website", "Phone", "Email", "Address",
           "Requirements", "Notes", "Stage"]
    ∧ ∀ p ∈ ([("Name", some (JValue.str "Alice"))] : List (String × Option JValue)),
        p.2 ≠ some (JValue.str "—") := by
  refine ⟨by decide, by decide, by decide⟩

/-- C7 (amended): `formatLeadData` assembles only the six fields Name,
Type, Company, Email, Phone, Requirements (in that order) and keeps
exactly those whose value is present and truthy — absent fields are
omitted, never replaced by a placeholder, and no Website, Address, Notes
or Stage row ever appears. -/
theorem formatLeadData_six_columns (d : LeadData) :
    ∃ rows, formatLeadData (some d) = some rows
      ∧ (rows.map Prod.fst).Sublist ["Name", "Type", "Company", "Email", "Phone", "Requirements"]
      ∧ (∀ p ∈ rows, optTruthy p.2 = true)
      ∧ (("Name", d.name) ∈ rows ↔ optTruthy d.name = true)
      ∧ (("Type", d.type) ∈ rows ↔ optTruthy d.type = true)
      ∧ (("Company", d.company) ∈ rows ↔ optTruthy d.company = true)
      ∧ (("Email", d.email) ∈ rows ↔ optTruthy d.email = true)
      ∧ (("Phone", d.phone) ∈ rows ↔ optTruthy d.phone = true)
      ∧ (("Requirements", d.requirements) ∈ rows ↔ optTruthy d.requirements = true)
      ∧ (∀ v, ("Website", v) ∉ rows)
      ∧ (∀ v, ("Address", v) ∉ rows)
      ∧ (∀ v, ("Notes", v) ∉ rows)
      ∧ (∀ v, ("Stage", v) ∉ rows) := by
  refine ⟨(leadFieldEntries d).filter (fun f => optTruthy f.2), rfl,
    ?_, ?_, ?_, ?_, ?_, ?_, ?_, ?_, ?_, ?_, ?_, ?_⟩
  · have h := (List.filter_sublist (l := leadFieldEntries d)
      (p := fun f => optTruthy f.2)).map Prod.fst
    simpa [leadFieldEntries] using h
  · intro p hp
    exact (List.mem_filter.mp hp).2
  · simp [List.mem_filter, leadFieldEntries]
  · simp [List.mem_filter, leadFieldEntries]
  · simp [List.mem_filter, leadFieldEntries]
  · simp [List.mem_filter, leadFieldEntries]
  · simp [List.mem_filter, leadFieldEntries]
  · simp [List.mem_filter, leadFieldEntries]
  · intro v hv
    have := (List.mem_filter.mp hv).1
    simp [leadFieldEntries] at this
  · intro v hv
    have := (List.mem_filter.mp hv).1
    simp [leadFieldEntries] at this
  · intro v hv
    have := (List.mem_filter.mp hv).1
    simp [leadFieldEntries] at this
  · intro v hv
    have := (List.mem_filter.mp hv).1
    simp [leadFieldEntries] at this

/-- Witness for the amended C7 at the concrete payload `leadDataAlice`. -/
theorem formatLeadData_six_columns_witness :
    ∃ rows, formatLeadData (some leadDataAlice) = some rows
      ∧ (rows.map Prod.fst).Sublist ["Name", "Type", "Company", "Email", "Phone", "Requirements"]
      ∧ (∀ p ∈ rows, optTruthy p.2 = true)
      ∧ (("Name", leadDataAlice.name) ∈ rows ↔ optTruthy leadDataAlice.name = true)
      ∧ (("Type", leadDataAlice.type) ∈ rows ↔ optTruthy leadDataAlice.type = true)
      ∧ (("Company", leadDataAlice.company) ∈ rows ↔ optTruthy leadDataAlice.company = true)
      ∧ (("Email", leadDataAlice.email) ∈ rows ↔ optTruthy leadDataAlice.email = true)
      ∧ (("Phone", leadDataAlice.phone) ∈ rows ↔ optTruthy leadDataAlice.phone = true)
      ∧ (("Requirements", leadDataAlice.requirements) ∈ rows
          ↔ optTruthy leadDataAlice.requirements = true)
      ∧ (∀ v, ("Website", v) ∉ rows)
      ∧ (∀ v, ("Address", v) ∉ rows)
      ∧ (∀ v, ("Notes", v) ∉ rows)
      ∧ (∀ v, ("Stage", v) ∉ rows) :=
  formatLeadData_six_columns leadDataAlice

/-- A Dashboard state in which a pipeline, a lead session and lead
conversation messages all exist. -/
def dashAfterUse : DashboardState where
  activeTab := "leadchat"
  pipelineData := some pdExample
  isLoading := false
  leadSession := some [("session_id", .str "s1"), ("business_name", .str "Acme Dental")]
  leadMessages := [[("sender", .str "user"), ("content", .str "hola")]]
  resetting := false

/-- Counterexample to C8: resetting a state that holds a lead session and
lead messages does not yield the process-start state — the session and
messages are retained (and `resetting` flips to `true`), so the result
differs from `initialDashboardState`. -/
theorem resetState_cex :
    (resetState dashAfterUse).leadMessages
        = [[("sender", JValue.str "user"), ("content", JValue.str "hola")]]
    ∧ (resetState dashAfterUse).leadSession
        = some [("session_id", JValue.str "s1"), ("business_name", JValue.str "Acme Dental")]
    ∧ initialDashboardState.leadMessages = []
    ∧ initialDashboardState.leadSession = none
    ∧ resetState dashAfterUse ≠ initialDashboardState := by
  refine ⟨rfl, rfl, rfl, rfl, ?_⟩
  intro h
  have hmsg := congrArg DashboardState.leadMessages h
  simp [resetState, dashAfterUse, initialDashboardState] at hmsg

/-- C8 (amended): the confirmed `resetState` path clears the pipeline data
and returns to the `chat` tab (and sets the `resetting` flag), but retains
the stored lead session and lead conversation messages, so the resulting
state equals process start only when no lead session or messages existed;
resetting backend state is delegated to the server. -/
theorem resetState_effect (s : DashboardState) :
    (resetState s).pipelineData = none
    ∧ (resetState s).activeTab = "chat"
    ∧ (resetState s).resetting = true
    ∧ (resetState s).leadSession = s.leadSession
    ∧ (resetState s).leadMessages = s.leadMessages
    ∧ (resetState s).isLoading = s.isLoading :=
  ⟨rfl, rfl, rfl, rfl, rfl, rfl⟩

/-- C4: a builder-agent reply is detected as pipeline-complete exactly
when its structured fields contain an integer `total_stages`, and the
detection is independent of the conversational text. -/
theorem pipelineCompleteReply_iff (r : AgentReply) :
    (pipelineCompleteReply r = true
      ↔ ∃ n : Int, r.fields.lookup "total_stages" = some (JValue.num n))
    ∧ ∀ t : String, pipelineCompleteReply { r with text := t } = pipelineCompleteReply r := by
  constructor
  · cases hl : r.fields.lookup "total_stages" with
    | none => simp [pipelineCompleteReply, hl]
    | some v => cases v <;> simp [pipelineCompleteReply, hl]
  · intro t
    rfl

/-- Witness for C4: a reply whose fields carry `total_stages = 2` is
detected as complete whatever the text says. -/
theorem pipelineCompleteReply_iff_witness :
    (pipelineCompleteReply
        { text := "Great, we are done!", fields := [("total_stages", JValue.num 2)] } = true
      ↔ ∃ n : Int,
          ([("total_stages", JValue.num 2)] : List (String × JValue)).lookup "total_stages"
            = some (JValue.num n))
    ∧ ∀ t : String,
        pipelineCompleteReply { text := t, fields := [("total_stages", JValue.num 2)] }
          = pipelineCompleteReply
              { text := "Great, we are done!", fields := [("total_stages", JValue.num 2)] } :=
  pipelineCompleteReply_iff
    { text := "Great, we are done!", fields := [("total_stages", JValue.num 2)] }

/-- C10: the fetched-lead sanitization applies its defaults (stage 1, name
`"Unnamed Lead"`, type `"Lead"`, empty email, empty tag list, fresh
timestamp) only when the key is absent from the raw record; any present
value — including `null`, `0` or another falsy value — is kept verbatim
because the record is spread over the defaults last.  Consequently the
sanitized stage need not lie in `1..stageCount`. -/
theorem sanitizeLead_defaults_only_when_absent (nowId nowIso : String) (raw : RawLead) :
    (raw.stage = none → (sanitizeLead nowId nowIso raw).stage = JValue.num 1)
    ∧ (∀ v, raw.stage = some v → (sanitizeLead nowId nowIso raw).stage = v)
    ∧ (raw.name = none → (sanitizeLead nowId nowIso raw).name = JValue.str "Unnamed Lead")
    ∧ (∀ v, raw.name = some v → (sanitizeLead nowId nowIso raw).name = v)
    ∧ (raw.type = none → (sanitizeLead nowId nowIso raw).type = JValue.str "Lead")
    ∧ (∀ v, raw.type = some v → (sanitizeLead nowId nowIso raw).type = v)
    ∧ (raw.email = none → (sanitizeLead nowId nowIso raw).email = JValue.str "")
    ∧ (∀ v, raw.email = some v → (sanitizeLead nowId nowIso raw).email = v)
    ∧ (raw.user_tags = none → (sanitizeLead nowId nowIso raw).user_tags = JValue.arr [])
    ∧ (∀ v, raw.user_tags = some v → (sanitizeLead nowId nowIso raw).user_tags = v)
    ∧ (raw.created_at = none → (sanitizeLead nowId nowIso raw).created_at = JValue.str nowIso)
    ∧ (∀ v, raw.created_at = some v → (sanitizeLead nowId nowIso raw).created_at = v) := by
  refine ⟨?_, ?_, ?_, ?_, ?_, ?_, ?_, ?_, ?_, ?_, ?_, ?_⟩ <;>
    first
      | (intro h; simp [sanitizeLead, h, jsOr])
      | (intro v h; simp [sanitizeLead, h])

/-- A raw lead record that carries `stage: 0` and `name: null`. -/
def rawZeroStage : RawLead where
  id := some (.str "L9")
  session_id := none
  name := some .null
  type := none
  email := none
  stage := some (.num 0)
  user_tags := none
  created_at := none

/-- Witness for C10: a record with `stage: 0` and `name: null` keeps both
falsy values verbatim — the sanitized stage is 0, outside `1..stageCount`
for every pipeline. -/
theorem sanitizeLead_defaults_only_when_absent_witness :
    ((sanitizeLead "17" "2024-03-01T00:00:00" rawZeroStage).stage = JValue.num 0
      ∧ (sanitizeLead "17" "2024-03-01T00:00:00" rawZeroStage).name = JValue.null
      ∧ stageOk 1 (sanitizeLead "17" "2024-03-01T00:00:00" rawZeroStage).stage = false)
    ∧ ((rawZeroStage.stage = none
          → (sanitizeLead "17" "2024-03-01T00:00:00" rawZeroStage).stage = JValue.num 1)
      ∧ (∀ v, rawZeroStage.stage = some v
          → (sanitizeLead "17" "2024-03-01T00:00:00" rawZeroStage).stage = v)
      ∧ (rawZeroStage.name = none
          → (sanitizeLead "17" "2024-03-01T00:00:00" rawZeroStage).name
              = JValue.str "Unnamed Lead")
      ∧ (∀ v, rawZeroStage.name = some v
          → (sanitizeLead "17" "2024-03-01T00:00:00" rawZeroStage).name = v)
      ∧ (rawZeroStage.type = none
          → (sanitizeLead "17" "2024-03-01T00:00:00" rawZeroStage).type = JValue.str "Lead")
      ∧ (∀ v, rawZeroStage.type = some v
          → (sanitizeLead "17" "2024-03-01T00:00:00" rawZeroStage).type = v)
      ∧ (rawZeroStage.email = none
          → (sanitizeLead "17" "2024-03-01T00:00:00" rawZeroStage).email = JValue.str "")
      ∧ (∀ v, rawZeroStage.email = some v
          → (sanitizeLead "17" "2024-03-01T00:00:00" rawZeroStage).email = v)
      ∧ (rawZeroStage.user_tags = none
          → (sanitizeLead "17" "2024-03-01T00:00:00" rawZeroStage).user_tags = JValue.arr [])
      ∧ (∀ v, rawZeroStage.user_tags = some v
          → (sanitizeLead "17" "2024-03-01T00:00:00" rawZeroStage).user_tags = v)
      ∧ (rawZeroStage.created_at = none
          → (sanitizeLead "17" "2024-03-01T00:00:00" rawZeroStage).created_at
              = JValue.str "2024-03-01T00:00:00")
      ∧ (∀ v, rawZeroStage.created_at = some v
          → (sanitizeLead "17" "2024-03-01T00:00:00" rawZeroStage).created_at = v)) :=
  ⟨⟨by decide, by decide, by decide⟩,
    sanitizeLead_defaults_only_when_absent "17" "2024-03-01T00:00:00" rawZeroStage⟩
